import Mathlib

/-!
# Verification of the dump-ingestion pipeline

A shallow embedding of the SQL-dump ingestion pipeline of the
Apple-Retail-Sales-Strategy repository, together with theorems checking the
specification's claims against it.

The embedded code lives in two places of the repository:

* model-server/load_sales_data.py — the module is a concatenation of two
  versions; Python semantics make the *second* definition of each name the
  effective one.  The surviving first-version helpers are
  _parse_insert_values, _extract_insert_blocks, _iter_tuple_texts,
  _load_from_sql_files and _canonicalize_columns; the effective
  load_sales_dataframe, _source_mtime, _strip_wrapping_quotes and
  _normalize_text_columns come from the second half of the file.
* web-development/backend/main.py — _ls_parse_insert_values, the backend's
  14-column INSERT parser (textually identical to the unused
  _parse_insert_values_from_file of load_sales_data.py).

Strings are modelled as Lean strings (lists of characters); file contents
are assumed free of NUL characters, which silences the one csv.reader error
path ("line contains NUL") that the model leaves out — the reader's other
error conditions (a carriage return in an unquoted field followed by more
text, and the field-size limit) are modelled by csvRaises, and the
pd.to_numeric TypeError on duplicated numeric column names by
dup_numeric_cols, so the loader's exception behavior is characterized
exactly.  Python floats are modelled as rationals.  Whitespace and case
mapping are modelled for ASCII, which covers every character the claims
exercise.
-/

namespace Sales

/-- Characters matched by Python's str.strip() and by the regex class \s
(ASCII fragment). -/
def isPyWs (c : Char) : Bool :=
  c = ' ' ∨ c = '\t' ∨ c = '\n' ∨ c = '\r' ∨ c = '\x0b' ∨ c = '\x0c'

/-- Python str.strip() on a character list: drop whitespace from both ends. -/
def pyStripChars (cs : List Char) : List Char :=
  ((cs.dropWhile isPyWs).reverse.dropWhile isPyWs).reverse

/-- Python str.strip() on strings. -/
def pyStrip (s : String) : String := ⟨pyStripChars s.data⟩

/-- Python str.upper() (ASCII case mapping; the only comparison made with it
in the embedded code is against the ASCII token NULL). -/
def pyUpper (s : String) : String := ⟨s.data.map Char.toUpper⟩

/-- Python str.strip(chars): drop characters satisfying p from both ends. -/
def stripCharsPred (p : Char → Bool) (cs : List Char) : List Char :=
  ((cs.dropWhile p).reverse.dropWhile p).reverse

/-- Python str.rstrip(chars): drop characters satisfying p from the right
end only. -/
def rstripCharsPred (p : Char → Bool) (cs : List Char) : List Char :=
  (cs.reverse.dropWhile p).reverse

/-!
## The CPython csv.reader state machine

Both field parsers call
csv.reader(io.StringIO(text), quotechar=chr(39), doublequote=True,
skipinitialspace=True) and keep only the first record.  The model below is
the CPython _csv.c state machine specialised to that dialect (delimiter
comma, single-quote quote character, doubled quotes, skip-initial-space,
non-strict, no escape character), run to the end of the first record.
-/

/-- States of the csv.reader field scanner. -/
inductive CsvState
  | startField
  | inField
  | inQuoted
  | quoteInQuoted
deriving DecidableEq

/-- Run the csv.reader machine to the end of the first record, producing the
record's value.  fs is the list of completed fields, f the characters of the
current field.  The reader's error conditions are decided separately by
csvRaises below; on a raising input this value function is never consulted
by the loader model. -/
def csvRun : List Char → CsvState → List String → List Char → List String
  | [], st, fs, f =>
    match st with
    | .startField => fs ++ [""]
    | _ => fs ++ [String.mk f]
  | c :: rest, .startField, fs, _ =>
    if c = '\n' ∨ c = '\r' then fs ++ [""]
    else if c = '\'' then csvRun rest .inQuoted fs []
    else if c = ' ' then csvRun rest .startField fs []
    else if c = ',' then csvRun rest .startField (fs ++ [""]) []
    else csvRun rest .inField fs [c]
  | c :: rest, .inField, fs, f =>
    if c = '\n' ∨ c = '\r' then fs ++ [String.mk f]
    else if c = ',' then csvRun rest .startField (fs ++ [String.mk f]) []
    else csvRun rest .inField fs (f ++ [c])
  | c :: rest, .inQuoted, fs, f =>
    if c = '\'' then csvRun rest .quoteInQuoted fs f
    else csvRun rest .inQuoted fs (f ++ [c])
  | c :: rest, .quoteInQuoted, fs, f =>
    if c = '\'' then csvRun rest .inQuoted fs (f ++ ['\''])
    else if c = ',' then csvRun rest .startField (fs ++ [String.mk f]) []
    else if c = '\n' ∨ c = '\r' then fs ++ [String.mk f]
    else csvRun rest .inField fs (f ++ [c])

/-- First record produced by csv.reader on the given text when the reader
does not raise, or the empty list when the reader is exhausted (the
next(reader, []) default): an empty input yields no record at all, and a
leading newline ends an empty record.  On inputs where the reader raises
(see csvRaises below) the real call raises instead of producing this value;
the loader model consults csvRaises wherever that exception is not caught. -/
def csvParse1 (s : String) : List String :=
  match s.data with
  | [] => []
  | c :: rest =>
    if c = '\n' ∨ c = '\r' then []
    else csvRun (c :: rest) .startField [] []

/-!
## The csv.reader error conditions

With this dialect (non-strict, no escape character) the reader raises while
producing the first record in exactly two ways on NUL-free text:

* EAT_CRNL: a carriage return in an unquoted position ends the record, after
  which only further carriage returns or the line-ending newline may follow
  on the same line — any other character raises the error about a new-line
  character seen in an unquoted field;
* the field-size limit: adding a character to a field that already holds
  csv.field_size_limit() (default 131072) characters raises.

A NUL character also raises; the model assumes NUL-free content, as stated
in the header.  The scan below tracks the reader's state and the current
field length and decides whether the first next() call raises.
-/

/-- States of the raise scanner: the csv.reader field states plus the
end-of-record carriage-return state EAT_CRNL. -/
inductive CsvRState
  | startField
  | inField
  | inQuoted
  | quoteInQuoted
  | eatCrnl
deriving DecidableEq

/-- The process-wide csv.field_size_limit() default. -/
def fieldLimit : Nat := 131072

/-- Whether the reader raises before completing the first record, given the
state and the current field length (the limit check happens before each
character is added to a field, exactly as in parse_add_char). -/
def csvRaisesRun : List Char → CsvRState → Nat → Bool
  | [], _, _ => false
  | c :: rest, .startField, _ =>
    if c = '\n' then false
    else if c = '\r' then csvRaisesRun rest .eatCrnl 0
    else if c = '\'' then csvRaisesRun rest .inQuoted 0
    else if c = ' ' then csvRaisesRun rest .startField 0
    else if c = ',' then csvRaisesRun rest .startField 0
    else csvRaisesRun rest .inField 1
  | c :: rest, .inField, fl =>
    if c = '\n' then false
    else if c = '\r' then csvRaisesRun rest .eatCrnl 0
    else if c = ',' then csvRaisesRun rest .startField 0
    else if fieldLimit ≤ fl then true
    else csvRaisesRun rest .inField (fl + 1)
  | c :: rest, .inQuoted, fl =>
    if c = '\'' then csvRaisesRun rest .quoteInQuoted fl
    else if fieldLimit ≤ fl then true
    else csvRaisesRun rest .inQuoted (fl + 1)
  | c :: rest, .quoteInQuoted, fl =>
    if c = '\'' then
      if fieldLimit ≤ fl then true else csvRaisesRun rest .inQuoted (fl + 1)
    else if c = ',' then csvRaisesRun rest .startField 0
    else if c = '\n' then false
    else if c = '\r' then csvRaisesRun rest .eatCrnl 0
    else if fieldLimit ≤ fl then true
    else csvRaisesRun rest .inField (fl + 1)
  | c :: rest, .eatCrnl, _ =>
    if c = '\r' then csvRaisesRun rest .eatCrnl 0
    else if c = '\n' then false
    else true

/-- Whether csv.reader raises on the first next() call for this text.  A
newline completes the first record, so nothing after the first line-ending
newline is ever scanned before the record is returned. -/
def csvRaises (s : String) : Bool :=
  match s.data with
  | [] => false
  | c :: rest =>
    if c = '\n' then false
    else if c = '\r' then csvRaisesRun rest .eatCrnl 0
    else csvRaisesRun (c :: rest) .startField 0

/-!
## Field parser (_parse_insert_values, load_sales_data.py lines 87-106)
-/

/-- Post-processing of one csv field by _parse_insert_values: strip, then
map any field that case-insensitively equals NULL to the null value. -/
def parseField (v : String) : Option String :=
  let vv := pyStrip v
  if pyUpper vv = "NULL" then none else some vv

/-- _parse_insert_values: parse the inner text of one VALUES tuple with
csv.reader and the NULL rule.  none models Python None. -/
def parse_insert_values (tupleText : String) : List (Option String) :=
  (csvParse1 tupleText).map parseField

/-!
## Tuple tokenizer (_iter_tuple_texts, load_sales_data.py lines 130-155)

The Python loop walks the blob with an index, an in_quote flag and the start
index of the currently open tuple, skipping doubled quotes while inside a
quoted string.  The model consumes one character at a time; the lookahead of
the doubled-quote rule becomes the afterQuote state.
-/

/-- Quote-scanner state: outside any quoted string, inside one, or just past
a quote character that was seen while inside one (the lookahead point of the
doubled-quote rule). -/
inductive QState
  | outside
  | inQuote
  | afterQuote
deriving DecidableEq

/-- Append a character to the currently open tuple slice, if one is open. -/
def pushOpt : Option (List Char) → Char → Option (List Char)
  | none, _ => none
  | some l, c => some (l ++ [c])

/-- The _iter_tuple_texts loop.  cur is the slice of the currently open
tuple (none when no tuple is open); every consumed character lands in the
slice because the Python code slices the blob between the parentheses. -/
def iterAux : List Char → QState → Option (List Char) → List (List Char)
  | [], _, _ => []
  | c :: rest, .outside, cur =>
    if c = '\'' then iterAux rest .inQuote (pushOpt cur c)
    else if c = '(' then
      match cur with
      | none => iterAux rest .outside (some [])
      | some t => iterAux rest .outside (some (t ++ [c]))
    else if c = ')' then
      match cur with
      | none => iterAux rest .outside none
      | some t => t :: iterAux rest .outside none
    else iterAux rest .outside (pushOpt cur c)
  | c :: rest, .inQuote, cur =>
    if c = '\'' then iterAux rest .afterQuote (pushOpt cur c)
    else iterAux rest .inQuote (pushOpt cur c)
  | c :: rest, .afterQuote, cur =>
    if c = '\'' then iterAux rest .inQuote (pushOpt cur c)
    else if c = '(' then
      match cur with
      | none => iterAux rest .outside (some [])
      | some t => iterAux rest .outside (some (t ++ [c]))
    else if c = ')' then
      match cur with
      | none => iterAux rest .outside none
      | some t => t :: iterAux rest .outside none
    else iterAux rest .outside (pushOpt cur c)

/-- _iter_tuple_texts on a character list. -/
def iter_tuple_texts_l (blob : List Char) : List (List Char) :=
  iterAux blob .outside none

/-- _iter_tuple_texts: the inner texts of the top-level parenthesized tuples
of a VALUES blob, quote-aware. -/
def iter_tuple_texts (blob : String) : List String :=
  (iter_tuple_texts_l blob.data).map String.mk

/-- Quote-scan acceptance for a tuple inner text: scanning it with the same
doubled-quote rule never meets a parenthesis outside a quoted string, and the
scan does not end inside an open quoted string.  This is the well-formedness
condition under which the tokenizer treats the text as one tuple. -/
def scanOk : List Char → QState → Bool
  | [], .outside => true
  | [], .inQuote => false
  | [], .afterQuote => true
  | c :: rest, .outside =>
    if c = '\'' then scanOk rest .inQuote
    else if c = '(' then false
    else if c = ')' then false
    else scanOk rest .outside
  | c :: rest, .inQuote =>
    if c = '\'' then scanOk rest .afterQuote
    else scanOk rest .inQuote
  | c :: rest, .afterQuote =>
    if c = '\'' then scanOk rest .inQuote
    else if c = '(' then false
    else if c = ')' then false
    else scanOk rest .outside

/-- A well-formed tuple inner text. -/
def tupleOk (cs : List Char) : Bool := scanOk cs .outside

/-- Separator text allowed between tuples of a blob: no parentheses and no
quote characters (commas, whitespace, anything else is fine). -/
def sepOk (cs : List Char) : Bool :=
  cs.all fun c => ¬(c = '(' ∨ c = ')' ∨ c = '\'')

/-- Build a VALUES blob from a leading separator and a list of
(tuple text, trailing separator) pairs. -/
def renderBlob : List Char → List (List Char × List Char) → List Char
  | sep0, [] => sep0
  | sep0, p :: ps => sep0 ++ '(' :: (p.1 ++ ')' :: renderBlob p.2 ps)

/-- SQL string-literal encoding: double every quote character. -/
def sqlDouble : List Char → List Char
  | [] => []
  | c :: rest =>
    if c = '\'' then '\'' :: '\'' :: sqlDouble rest
    else c :: sqlDouble rest

/-- SQL string-literal encoding of a string: wrap in single quotes with every
embedded quote doubled. -/
def sqlEncode (s : String) : String := ⟨'\'' :: (sqlDouble s.data ++ ['\''])⟩

/-!
## Block extractor (_extract_insert_blocks, load_sales_data.py lines 109-127)

The Python code walks the file text with finditer over the pattern
INSERT\s+INTO\s+sales_data\s*\( [^)]+ \)\s*VALUES\s* .*? ;
(IGNORECASE, DOTALL).  The scanner below is that regex: the quantifiers are
deterministic here ([^)]+ must stop at the first closing parenthesis, \s+
and \s* at the first non-whitespace character, and the lazy .*? at the first
semicolon), so a character-level matcher is equivalent.
-/

/-- Match a literal ASCII word case-insensitively; the pattern is given in
lower case.  Returns the rest of the input on success. -/
def matchCI : List Char → List Char → Option (List Char)
  | [], cs => some cs
  | _ :: _, [] => none
  | p :: ps, c :: cs => if c.toLower = p then matchCI ps cs else none

/-- Match the regex \s+ (at least one whitespace character, greedily). -/
def ws1 : List Char → Option (List Char)
  | [] => none
  | c :: rest => if isPyWs c then some ((c :: rest).dropWhile isPyWs) else none

/-- Match the regex \s* (any whitespace, greedily). -/
def ws0 (cs : List Char) : List Char := cs.dropWhile isPyWs

/-- Characters strictly before the first occurrence of the stop character,
together with the rest after it; none when the stop character is absent. -/
def takeUntil (stop : Char) : List Char → Option (List Char × List Char)
  | [] => none
  | c :: rest =>
    if c = stop then some ([], rest)
    else (takeUntil stop rest).map fun p => (c :: p.1, p.2)

/-- Attempt the INSERT-block pattern of _extract_insert_blocks at the current
position.  Returns (raw column text, raw VALUES blob, rest after the
semicolon). -/
def matchInsertBlock (cs : List Char) : Option (List Char × List Char × List Char) := do
  let r1 ← matchCI "insert".data cs
  let r2 ← ws1 r1
  let r3 ← matchCI "into".data r2
  let r4 ← ws1 r3
  let r5 ← matchCI "sales_data".data r4
  let r6 := ws0 r5
  let r7 ← match r6 with
           | '(' :: t => some t
           | _ => none
  let (colsRaw, r8) ← takeUntil ')' r7
  if colsRaw.isEmpty then none
  else do
    let r9 := ws0 r8
    let r10 ← matchCI "values".data r9
    let r11 := ws0 r10
    let (vals, r12) ← takeUntil ';' r11
    some (colsRaw, vals, r12)

/-- One parsed column name: comma-split piece, stripped of whitespace and
then of double quotes. -/
def colName (cs : List Char) : String :=
  ⟨stripCharsPred (fun c => c = '"') (pyStripChars cs)⟩

/-- The finditer loop of _extract_insert_blocks: scan left to right, emit
each non-overlapping match, resume after it.  The fuel argument (one unit
per consumed character suffices, since every step consumes at least one) is
initialised to the input length. -/
def scanBlocks : Nat → List Char → List (List String × String)
  | 0, _ => []
  | _, [] => []
  | fuel + 1, c :: rest =>
    match matchInsertBlock (c :: rest) with
    | some (colsRaw, vals, r) =>
      ((colsRaw.splitOn ',').map colName, (⟨pyStripChars vals⟩ : String)) ::
        scanBlocks fuel r
    | none => scanBlocks fuel rest

/-- _extract_insert_blocks: all (columns, VALUES blob) pairs of a file. -/
def extract_insert_blocks (sql : String) : List (List String × String) :=
  scanBlocks sql.data.length sql.data

/-!
## Backend 14-column parser (_ls_parse_insert_values,
web-development/backend/main.py lines 224-249; textually identical to the
unused _parse_insert_values_from_file of load_sales_data.py lines 335-363)
-/

/-- Attempt the backend pattern
INSERT\s+INTO\s+sales_data\s+\( [^)]+ \)\s+VALUES\s+ (.+)
(IGNORECASE, DOTALL) at the current position, returning group 1.  The final
\s+(.+) backtracks when nothing follows the whitespace run: the greedy \s+
gives one whitespace character back to the greedy .+ provided at least one
whitespace character remains for \s+. -/
def matchInsertHeader (cs : List Char) : Option (List Char) := do
  let r1 ← matchCI "insert".data cs
  let r2 ← ws1 r1
  let r3 ← matchCI "into".data r2
  let r4 ← ws1 r3
  let r5 ← matchCI "sales_data".data r4
  let r6 ← ws1 r5
  let r7 ← match r6 with
           | '(' :: t => some t
           | _ => none
  let (colsRaw, r8) ← takeUntil ')' r7
  if colsRaw.isEmpty then none
  else do
    let r9 ← ws1 r8
    let r10 ← matchCI "values".data r9
    match r10 with
    | [] => none
    | c :: _ =>
      if isPyWs c then
        match r10.dropWhile isPyWs with
        | [] =>
          if 2 ≤ r10.length then (r10.getLast?).map fun c2 => [c2]
          else none
        | rest => some rest
      else none

/-- The re.search loop for the backend pattern: first match position wins. -/
def searchInsertHeader : Nat → List Char → Option (List Char)
  | 0, _ => none
  | _, [] => none
  | fuel + 1, c :: rest =>
    match matchInsertHeader (c :: rest) with
    | some g => some g
    | none => searchInsertHeader fuel rest

/-- One step of re.split(r"\)\s*,\s*\(", -): after a closing parenthesis,
try to consume \s*,\s*\( and return the rest. -/
def trySepSplit (cs : List Char) : Option (List Char) :=
  match cs.dropWhile isPyWs with
  | ',' :: r2 =>
    match r2.dropWhile isPyWs with
    | '(' :: r4 => some r4
    | _ => none
  | _ => none

/-- re.split(r"\)\s*,\s*\(", -): cut at each non-overlapping leftmost match
of a closing parenthesis followed by an optionally spaced comma and an
opening parenthesis. -/
def splitTupleSep : Nat → List Char → List Char → List (List Char)
  | 0, cs, cur => [cur ++ cs]
  | _ + 1, [], cur => [cur]
  | fuel + 1, c :: rest, cur =>
    if c = ')' then
      match trySepSplit rest with
      | some r2 => cur :: splitTupleSep fuel r2 []
      | none => splitTupleSep fuel rest (cur ++ [c])
    else splitTupleSep fuel rest (cur ++ [c])

/-- The part.strip().strip of one split part: strip whitespace, then strip
parentheses from both ends. -/
def lsStripped (part : List Char) : List Char :=
  stripCharsPred (fun c => c = '(' ∨ c = ')') (pyStripChars part)

/-- Row extraction applied to one split part by _ls_parse_insert_values:
skip empty parts, csv-parse, keep the first 14 fields of any row with at
least 14 fields. -/
def lsParsePart (part : List Char) : Option (List String) :=
  if (lsStripped part).isEmpty then none
  else if 14 ≤ (csvParse1 ⟨lsStripped part⟩).length then
    some ((csvParse1 ⟨lsStripped part⟩).take 14)
  else none

/-- The values part of the backend parser: group 1 stripped, right-stripped
of closing parentheses and semicolons, stripped again. -/
def lsValuesPart (g : List Char) : List Char :=
  pyStripChars (rstripCharsPred (fun c => c = ')' ∨ c = ';') (pyStripChars g))

/-- _ls_parse_insert_values: the backend 14-column INSERT parser. -/
def ls_parse_insert_values (content : String) : List (List String) :=
  match searchInsertHeader content.data.length content.data with
  | none => []
  | some g =>
    if (lsValuesPart g).isEmpty then []
    else (splitTupleSep (lsValuesPart g).length (lsValuesPart g) []).filterMap
      lsParsePart

/-!
## Numeric coercion (pd.to_numeric(-, errors = coerce))

Floats are modelled as rationals.  The parser accepts an optionally signed
decimal with optional fraction and exponent, surrounded by optional
whitespace; anything else (including infinities, which rationals cannot
represent) coerces to NaN.
-/

/-- Decimal digit accumulation. -/
def digitsVal : List Char → Nat → Nat
  | [], acc => acc
  | c :: rest, acc => digitsVal rest (acc * 10 + (c.toNat - 48))

/-- Split a maximal run of decimal digits. -/
def takeDigits (cs : List Char) : List Char × List Char :=
  (cs.takeWhile Char.isDigit, cs.dropWhile Char.isDigit)

/-- Exponent scale factor; the exponent digits must exhaust the input. -/
def expDigits (cs : List Char) (negE : Bool) : Option ℚ :=
  let (d, r) := takeDigits cs
  if d.isEmpty ∨ ¬r.isEmpty then none
  else some (if negE then (1 : ℚ) / 10 ^ digitsVal d 0 else (10 : ℚ) ^ digitsVal d 0)

/-- Optional exponent part: empty input means scale one. -/
def pyExp : List Char → Option ℚ
  | [] => some 1
  | c :: r =>
    if c = 'e' ∨ c = 'E' then
      match r with
      | '+' :: r2 => expDigits r2 false
      | '-' :: r2 => expDigits r2 true
      | r2 => expDigits r2 false
    else none

/-- Unsigned decimal magnitude with optional fraction and exponent. -/
def pyFloatMag (cs : List Char) : Option ℚ :=
  let (ip, r1) := takeDigits cs
  match r1 with
  | '.' :: r2 =>
    let (fp, r3) := takeDigits r2
    if ip.isEmpty ∧ fp.isEmpty then none
    else (pyExp r3).map fun e =>
      ((digitsVal ip 0 : ℚ) + (digitsVal fp 0 : ℚ) / 10 ^ fp.length) * e
  | _ =>
    if ip.isEmpty then none
    else (pyExp r1).map fun e => (digitsVal ip 0 : ℚ) * e

/-- Signed decimal. -/
def pyFloatCore : List Char → Option ℚ
  | '+' :: r => pyFloatMag r
  | '-' :: r => (pyFloatMag r).map Neg.neg
  | r => pyFloatMag r

/-- pd.to_numeric on one string cell, none meaning NaN. -/
def pyToNumeric (s : String) : Option ℚ :=
  pyFloatCore (pyStripChars s.data)

/-!
## Tables

A DataFrame cell is a string, Python None (parsed NULL, and the value
np.empty pads ragged rows with), NaN, or a number.  A Table is an ordered
column list with the row values.
-/

/-- One DataFrame cell. -/
inductive Cell
  | str (s : String)
  | null
  | nan
  | num (q : ℚ)
deriving DecidableEq

/-- A DataFrame: ordered column names and rows. -/
structure Table where
  cols : List String
  rows : List (List Cell)
deriving DecidableEq

instance : Inhabited Table := ⟨⟨[], []⟩⟩

/-!
## _load_from_sql_files (load_sales_data.py lines 158-175) and the
pd.DataFrame constructor

A source file is its content, or none when the path does not exist or
read_text raises (both are skipped by the try/except).  Every tuple of every
block is parsed and appended with no field-count check.  pd.DataFrame with a
list of lists pads short rows with None up to the maximum row length and
raises an AssertionError when that maximum differs from the column count.
-/

/-- One resolvable source file: content and stat().st_mtime. -/
structure FileRec where
  content : String
  mtime : Nat
deriving DecidableEq

/-- The file system as seen through the fixed candidate paths: for each path,
the file (none when missing or unreadable). -/
abbrev FS := List (Option FileRec)

/-- All INSERT blocks of all readable files, in deterministic path order. -/
def allBlocks (fs : FS) : List (List String × String) :=
  (fs.map fun f =>
    match f with
    | none => []
    | some fr => extract_insert_blocks fr.content).flatten

/-- cols_final: the first block's columns (every block's column list is
nonempty, so the Python cols_final or cols keeps the first one). -/
def colsFinal (fs : FS) : Option (List String) :=
  (allBlocks fs).head?.map Prod.fst

/-- The row list accumulated by _load_from_sql_files: every tuple of every
block, parsed, with no field-count check. -/
def loadRows (fs : FS) : List (List (Option String)) :=
  ((allBlocks fs).map fun b =>
    (iter_tuple_texts b.2).map parse_insert_values).flatten

/-- Maximum row length, the width of the object array pd.DataFrame builds. -/
def maxRowLen (rows : List (List (Option String))) : Nat :=
  rows.foldr (fun r m => max r.length m) 0

/-- One parsed field as a cell. -/
def cellOfField : Option String → Cell
  | some s => .str s
  | none => .null

/-- One row of the object array: parsed fields, padded with None (the fill
value of np.empty for object arrays) up to the array width. -/
def padRow (m : Nat) (r : List (Option String)) : List Cell :=
  r.map cellOfField ++ List.replicate (m - r.length) .null

/-- Whether some tuple text of some block makes csv.reader raise inside
_parse_insert_values.  That call sits outside the per-file try/except (which
only wraps read_text), so the error aborts the whole load. -/
def anyCsvRaise (fs : FS) : Bool :=
  (allBlocks fs).any fun b => (iter_tuple_texts b.2).any fun t => csvRaises t

/-- The rename map of the effective load_sales_dataframe. -/
def renameCol (c : String) : String :=
  if c = "city" then "City"
  else if c = "country" then "Country"
  else if c = "store_name" then "Store_Name"
  else if c = "product_name" then "Product_Name"
  else c

/-- The numeric column allow-list of the effective load_sales_dataframe. -/
def numericCols : List String := ["quantity", "total_sales", "price"]

/-- Whether the numeric-coercion loop of load_sales_dataframe raises: a
numeric column name occurring more than once among the renamed columns makes
df[col] a DataFrame, on which pd.to_numeric raises a TypeError that nothing
catches.  (Duplicates of non-numeric names never raise: the normalization
loop wraps its per-column work in try/except.) -/
def dup_numeric_cols (cols : List String) : Bool :=
  numericCols.any fun n => 2 ≤ (cols.map renameCol).count n

/-- The column list of the established schema, empty when no block exists. -/
def firstCols (fs : FS) : List String :=
  ((allBlocks fs).head?.map Prod.fst).getD []

/-- _load_from_sql_files followed by the pd.DataFrame constructor and the
raising steps of load_sales_dataframe, fused into one Except value:

* an error for a csv.reader exception raised while accumulating rows (see
  csvRaises; raised before any later step runs);
* none when no rows or no columns were found (the function returns None);
* an error for the AssertionError pandas raises when the column count
  differs from the width of the data;
* an error for the TypeError pd.to_numeric raises on a duplicated numeric
  column name.  In the program this last exception fires inside
  load_sales_dataframe after rename and normalization, but surfacing it here
  is observationally identical: the same call raises, _cache_df keeps its
  previous value and _cache_mtime has already been updated, exactly as for
  the other two exceptions (see loadRebuild). -/
def load_from_sql_files (fs : FS) : Except Unit (Option Table) :=
  if anyCsvRaise fs then .error ()
  else match (allBlocks fs).head? with
  | none => .ok none
  | some b =>
    if (loadRows fs).isEmpty then .ok none
    else if maxRowLen (loadRows fs) = b.1.length then
      if dup_numeric_cols b.1 then .error ()
      else .ok (some ⟨b.1, (loadRows fs).map (padRow (maxRowLen (loadRows fs)))⟩)
    else .error ()

/-!
## Post-processing by the effective load_sales_dataframe
(load_sales_data.py lines 380-415)

Rename synonym columns, normalize text cells with the second
_strip_wrapping_quotes (lines 264-273), coerce the three numeric columns
with pd.to_numeric(-, errors = coerce).  The normalization maps every
object column; applying it to every cell is extensionally identical because
_strip_wrapping_quotes is the identity on non-string values.
-/

/-- The second _strip_wrapping_quotes: strip, unwrap one layer of matching
single or double quotes, strip again.  Identity on non-strings. -/
def strip_wrapping_quotes (s : String) : String :=
  let t := pyStripChars s.data
  match t with
  | c :: (c2 :: rest) =>
    let l := (c2 :: rest).getLast (List.cons_ne_nil c2 rest)
    if (c = '\'' ∧ l = '\'') ∨ (c = '"' ∧ l = '"') then
      ⟨pyStripChars ((c2 :: rest).dropLast)⟩
    else ⟨t⟩
  | _ => ⟨t⟩

/-- _normalize_text_columns on one cell. -/
def normCell : Cell → Cell
  | .str s => .str (strip_wrapping_quotes s)
  | c => c

/-- pd.to_numeric(-, errors = coerce) on one cell. -/
def toNumericCell : Cell → Cell
  | .str s =>
    match pyToNumeric s with
    | some q => .num q
    | none => .nan
  | .null => .nan
  | .nan => .nan
  | .num q => .num q

/-- Rename, normalize and coerce one freshly built table.  This is the value
of the non-raising path: load_from_sql_files already surfaced the TypeError
of a duplicated numeric column, so here every numeric column name is unique
and pd.to_numeric returns a Series. -/
def postprocess (t : Table) : Table :=
  let cols := t.cols.map renameCol
  ⟨cols, t.rows.map fun r =>
    (cols.zip (r.map normCell)).map fun p =>
      if p.1 ∈ numericCols then toNumericCell p.2 else p.2⟩

/-!
## The freshness-keyed cache (load_sales_data.py lines 366-415)

The module state is the pair of globals _cache_df (a reference to a
DataFrame object) and _cache_mtime.  DataFrame objects live in a heap so
that the df.copy() calls, and what a caller could do to a returned object,
are observable: a reference is an index, allocation appends.  The returned
value of load_sales_dataframe is a reference; the third component counts
successful read_text calls, zero on the cached path.
-/

/-- _source_mtime: the maximum stat().st_mtime over the existing SQL files,
0.0 when none exists. -/
def source_mtime (fs : FS) : Nat :=
  fs.foldr (fun f m => match f with | none => m | some fr => max fr.mtime m) 0

/-- Number of successful read_text calls a rebuild performs. -/
def readsOf (fs : FS) : Nat := fs.countP Option.isSome

/-- The module-level globals of load_sales_data.py plus the object heap. -/
structure LoaderState where
  heap : List Table
  cacheRef : Option Nat
  cacheMtime : Nat

/-- The fresh module state. -/
def initState : LoaderState := ⟨[], none, 0⟩

/-- The rebuild path of load_sales_dataframe: _cache_mtime is assigned
before the build, so it is updated even when pd.DataFrame raises (in which
case _cache_df keeps its previous value and the exception propagates). -/
def loadRebuild (fs : FS) (s : LoaderState) (m : Nat) :
    LoaderState × Except Unit (Option Nat) × Nat :=
  match load_from_sql_files fs with
  | .error _ => (⟨s.heap, s.cacheRef, m⟩, .error (), readsOf fs)
  | .ok none => (⟨s.heap, none, m⟩, .ok none, readsOf fs)
  | .ok (some t0) =>
    let t := postprocess t0
    (⟨s.heap ++ [t, t], some s.heap.length, m⟩,
      .ok (some (s.heap.length + 1)), readsOf fs)

/-- The effective load_sales_dataframe: serve a fresh copy of the cached
DataFrame when the freshness signature is positive and unchanged, rebuild
otherwise.  Both the cached object and the returned object are fresh
allocations (the code caches df and returns df.copy()). -/
def load_sales_dataframe (fs : FS) (s : LoaderState) :
    LoaderState × Except Unit (Option Nat) × Nat :=
  let m := source_mtime fs
  match s.cacheRef with
  | some c =>
    if 0 < m ∧ s.cacheMtime = m then
      (⟨s.heap ++ [s.heap.getD c default], some c, s.cacheMtime⟩,
        .ok (some s.heap.length), 0)
    else loadRebuild fs s m
  | none => loadRebuild fs s m

/-- The table value a call returns: the heap object behind the returned
reference (none when the call returned None or raised). -/
def retVal (p : LoaderState × Except Unit (Option Nat) × Nat) : Option Table :=
  match p.2.1 with
  | .ok (some r) => p.1.heap[r]?
  | _ => none

/-- Replace the heap object behind a reference: what a caller mutating a
returned DataFrame in place does to the object store. -/
def mutateAt (s : LoaderState) (r : Nat) (t : Table) : LoaderState :=
  ⟨s.heap.set r t, s.cacheRef, s.cacheMtime⟩

/-- A well-formed module state: the cache reference, when set, points into
the heap.  The fresh state is well-formed and every call preserves this. -/
def wfState (s : LoaderState) : Bool :=
  match s.cacheRef with
  | none => true
  | some c => c < s.heap.length

/-!
## The shadowed store_stock_quantity synthesis
(load_sales_data.py lines 239-243, first, shadowed load_sales_dataframe)

The shadowed loader draws one ratio per row from an unseeded
np.random.default_rng(); the draw is modelled as an explicit rational in
[0, 1).  The code computes (q * (0.95 + draw * 0.35)).clip(lower=1).round()
with numpy round-half-to-even.
-/

/-- The stand-in stock ratio for one random draw. -/
def stockFactor (r : ℚ) : ℚ := 95 / 100 + r * (35 / 100)

/-- numpy round half to even on a rational. -/
def roundHalfEven (x : ℚ) : ℤ :=
  let f := ⌊x⌋
  let frac := x - f
  if frac < 1 / 2 then f
  else if 1 / 2 < frac then f + 1
  else if f % 2 = 0 then f else f + 1

/-- One synthesized store_stock_quantity value of the shadowed loader. -/
def stockSynth (q r : ℚ) : ℤ := roundHalfEven (max 1 (q * stockFactor r))

/-!
## Tokenizer lemmas

The tokenizer walks separator text without effect, and consumes a
well-formed tuple text up to its closing parenthesis as one slice.
-/

theorem iterAux_sep (sep : List Char) (h : sepOk sep = true) (rest : List Char) :
    iterAux (sep ++ rest) .outside none = iterAux rest .outside none := by
  induction sep with
  | nil => rfl
  | cons c s ih =>
    simp only [sepOk, List.all_cons, Bool.and_eq_true, decide_eq_true_eq] at h
    obtain ⟨hc, hs⟩ := h
    push_neg at hc
    obtain ⟨h1, h2, h3⟩ := hc
    simp only [List.cons_append, iterAux, h1, h2, h3, if_false, pushOpt]
    exact ih hs

theorem iterAux_close (t : List Char) : ∀ (st : QState) (acc rest : List Char),
    scanOk t st = true →
    iterAux (t ++ ')' :: rest) st (some acc) =
      (acc ++ t) :: iterAux rest .outside none := by
  induction t with
  | nil =>
    intro st acc rest h
    cases st with
    | outside => simp [iterAux]
    | inQuote => simp [scanOk] at h
    | afterQuote => simp [iterAux]
  | cons c t ih =>
    intro st acc rest h
    cases st with
    | outside =>
      by_cases hq : c = '\''
      · subst hq
        simp only [scanOk, if_pos rfl] at h
        simpa [iterAux, pushOpt] using ih .inQuote (acc ++ ['\'']) rest h
      · by_cases hp : c = '('
        · simp [scanOk, hq, hp] at h
        · by_cases hr : c = ')'
          · simp [scanOk, hq, hp, hr] at h
          · simp only [scanOk, hq, hp, hr, if_false] at h
            simpa [iterAux, hq, hp, hr, pushOpt] using
              ih .outside (acc ++ [c]) rest h
    | inQuote =>
      by_cases hq : c = '\''
      · subst hq
        simp only [scanOk, if_pos rfl] at h
        simpa [iterAux, pushOpt] using ih .afterQuote (acc ++ ['\'']) rest h
      · simp only [scanOk, hq, if_false] at h
        simpa [iterAux, hq, pushOpt] using ih .inQuote (acc ++ [c]) rest h
    | afterQuote =>
      by_cases hq : c = '\''
      · subst hq
        simp only [scanOk, if_pos rfl] at h
        simpa [iterAux, pushOpt] using ih .inQuote (acc ++ ['\'']) rest h
      · by_cases hp : c = '('
        · simp [scanOk, hq, hp] at h
        · by_cases hr : c = ')'
          · simp [scanOk, hq, hp, hr] at h
          · simp only [scanOk, hq, hp, hr, if_false] at h
            simpa [iterAux, hq, hp, hr, pushOpt] using
              ih .outside (acc ++ [c]) rest h

theorem scanOk_sqlDouble (s : List Char) (rest : List Char) :
    scanOk (sqlDouble s ++ rest) .inQuote = scanOk rest .inQuote := by
  induction s with
  | nil => rfl
  | cons c t ih =>
    by_cases hq : c = '\''
    · subst hq
      simp [sqlDouble, scanOk, ih]
    · simp [sqlDouble, hq, scanOk, ih]

theorem tupleOk_sqlEncode (s : List Char) :
    tupleOk ('\'' :: (sqlDouble s ++ ['\''])) = true := by
  show scanOk _ .outside = true
  simp only [scanOk, if_pos rfl]
  rw [scanOk_sqlDouble]
  simp [scanOk]

theorem csvRun_sqlDouble (s : List Char) :
    ∀ (rest : List Char) (fs : List String) (f : List Char),
    csvRun (sqlDouble s ++ rest) .inQuoted fs f = csvRun rest .inQuoted fs (f ++ s) := by
  induction s with
  | nil => simp [sqlDouble]
  | cons c t ih =>
    intro rest fs f
    by_cases hq : c = '\''
    · subst hq
      simp only [sqlDouble, if_pos rfl, List.cons_append]
      show csvRun (sqlDouble t ++ rest) .inQuoted fs (f ++ ['\'']) =
        csvRun rest .inQuoted fs (f ++ '\'' :: t)
      rw [ih]
      simp
    · simp only [sqlDouble, if_neg hq, List.cons_append, csvRun, hq, if_false]
      rw [ih]
      simp

/-- Parsing a fully quoted SQL string literal with csv.reader recovers the
raw characters exactly (before the strip and NULL steps). -/
theorem csvParse1_sqlEncode (s : String) : csvParse1 (sqlEncode s) = [s] := by
  show csvParse1 ⟨'\'' :: (sqlDouble s.data ++ ['\''])⟩ = [s]
  rw [csvParse1]
  simp only [if_neg (by decide : ¬('\'' = '\n' ∨ '\'' = '\r'))]
  rw [csvRun]
  simp only [if_neg (by decide : ¬('\'' = '\n' ∨ '\'' = '\r')), if_pos rfl]
  rw [csvRun_sqlDouble]
  simp [csvRun]

/-- The tokenizer treats one parenthesized encoded literal as one tuple
whose inner text is the encoded literal. -/
theorem iter_tuple_texts_sqlEncode (s : String) :
    iter_tuple_texts ("(" ++ sqlEncode s ++ ")") = [sqlEncode s] := by
  rw [iter_tuple_texts, iter_tuple_texts_l]
  have hdata : ("(" ++ sqlEncode s ++ ")").data =
      '(' :: (('\'' :: (sqlDouble s.data ++ ['\''])) ++ ')' :: []) := by
    simp [String.data_append, sqlEncode]
  rw [hdata]
  have hopen : iterAux ('(' :: (('\'' :: (sqlDouble s.data ++ ['\''])) ++ ')' :: []))
      .outside none =
      iterAux (('\'' :: (sqlDouble s.data ++ ['\''])) ++ ')' :: []) .outside (some []) := by
    simp [iterAux]
  rw [hopen, iterAux_close _ .outside [] [] (tupleOk_sqlEncode s.data)]
  rfl

/-- A string containing an apostrophe cannot case-fold to the token NULL. -/
theorem pyUpper_ne_NULL (s : String) (h : '\'' ∈ s.data) : pyUpper s ≠ "NULL" := by
  intro hu
  have hmem : Char.toUpper '\'' ∈ s.data.map Char.toUpper :=
    List.mem_map_of_mem Char.toUpper h
  have : s.data.map Char.toUpper = "NULL".data := congrArg String.data hu
  rw [this] at hmem
  revert hmem
  decide

theorem isPyWs_sep (c : Char) (h : isPyWs c = true) :
    ¬(c = '(' ∨ c = ')' ∨ c = '\'') := by
  simp only [isPyWs, decide_eq_true_eq] at h
  rcases h with rfl | rfl | rfl | rfl | rfl | rfl <;> decide

theorem iterAux_render (parts : List (List Char × List Char)) :
    ∀ sep0, sepOk sep0 = true →
    (∀ p ∈ parts, tupleOk p.1 = true ∧ sepOk p.2 = true) →
    iterAux (renderBlob sep0 parts) .outside none = parts.map Prod.fst := by
  induction parts with
  | nil =>
    intro sep0 h0 _
    rw [renderBlob]
    have := iterAux_sep sep0 h0 []
    simpa using this
  | cons p ps ih =>
    intro sep0 h0 hp
    have hhead := hp p (List.mem_cons_self p ps)
    rw [renderBlob, iterAux_sep sep0 h0]
    have hopen : iterAux ('(' :: (p.1 ++ ')' :: renderBlob p.2 ps)) .outside none =
        iterAux (p.1 ++ ')' :: renderBlob p.2 ps) .outside (some []) := by
      simp [iterAux]
    rw [hopen, iterAux_close p.1 .outside [] (renderBlob p.2 ps) hhead.1]
    simp only [List.nil_append, List.map_cons, List.cons.injEq, true_and]
    exact ih p.2 hhead.2 fun q hq => hp q (List.mem_cons_of_mem p hq)

/-!
## Backend parser lemmas
-/

theorem lsParsePart_length (part : List Char) (row : List String)
    (h : lsParsePart part = some row) : row.length = 14 := by
  rw [lsParsePart] at h
  split at h
  · exact absurd h (by simp)
  · split at h
    · rename_i hlen
      simp only [Option.some.injEq] at h
      subst h
      simp [List.length_take, Nat.min_eq_left hlen]
    · exact absurd h (by simp)

theorem ls_parse_mem_shape (content : String) (row : List String)
    (h : row ∈ ls_parse_insert_values content) :
    ∃ part, lsParsePart part = some row := by
  rw [ls_parse_insert_values] at h
  split at h
  · exact absurd h (by simp)
  · split at h
    · exact absurd h (by simp)
    · obtain ⟨part, _, hp⟩ := List.mem_filterMap.mp h
      exact ⟨part, hp⟩

theorem ls_parse_row_length (content : String) (row : List String)
    (h : row ∈ ls_parse_insert_values content) : row.length = 14 := by
  obtain ⟨part, hp⟩ := ls_parse_mem_shape content row h
  exact lsParsePart_length part row hp

/-!
## Loader result characterization
-/

/-- The column count of the established schema, 0 when no block exists. -/
def firstColsLen (fs : FS) : Nat :=
  ((allBlocks fs).head?.map fun b => b.1.length).getD 0

/-- A csv.reader exception can only occur on an existing tuple, so an
aborted load always had at least one parsed row. -/
theorem anyCsvRaise_rows_ne (fs : FS) (h : anyCsvRaise fs = true) :
    loadRows fs ≠ [] := by
  rw [anyCsvRaise, List.any_eq_true] at h
  obtain ⟨b, hbmem, hb⟩ := h
  rw [List.any_eq_true] at hb
  obtain ⟨t, htmem, _⟩ := hb
  intro hnil
  rw [loadRows, List.flatten_eq_nil_iff] at hnil
  have h2 := hnil ((iter_tuple_texts b.2).map parse_insert_values)
    (List.mem_map_of_mem _ hbmem)
  rw [List.map_eq_nil_iff] at h2
  rw [h2] at htmem
  exact absurd htmem (List.not_mem_nil t)

theorem load_from_sql_files_ok_none_iff (fs : FS) :
    load_from_sql_files fs = .ok none ↔ loadRows fs = [] := by
  rw [load_from_sql_files]
  cases hnr : anyCsvRaise fs with
  | true => simp [anyCsvRaise_rows_ne fs hnr]
  | false =>
    simp only [Bool.false_eq_true, if_false]
    rcases hb : (allBlocks fs).head? with _ | b
    · simp only [true_iff]
      rw [List.head?_eq_none_iff] at hb
      simp [loadRows, hb]
    · rcases hr : (loadRows fs).isEmpty with _ | _
      · have hr' : loadRows fs ≠ [] := by
          simpa [List.isEmpty_iff] using hr
        simp only [hr, Bool.false_eq_true, if_false]
        split_ifs <;> simp [hr']
      · have hr' : loadRows fs = [] := List.isEmpty_iff.mp hr
        simp [hr, hr']

theorem load_from_sql_files_error_iff (fs : FS) :
    load_from_sql_files fs = .error () ↔
      (anyCsvRaise fs = true ∨
        (loadRows fs ≠ [] ∧ maxRowLen (loadRows fs) ≠ firstColsLen fs) ∨
        (loadRows fs ≠ [] ∧ maxRowLen (loadRows fs) = firstColsLen fs ∧
          dup_numeric_cols (firstCols fs) = true)) := by
  rw [load_from_sql_files]
  cases hnr : anyCsvRaise fs with
  | true => simp
  | false =>
    simp only [Bool.false_eq_true, if_false, false_or]
    rcases hb : (allBlocks fs).head? with _ | b
    · rw [List.head?_eq_none_iff] at hb
      simp [loadRows, hb]
    · have hfl : firstColsLen fs = b.1.length := by simp [firstColsLen, hb]
      have hfc : firstCols fs = b.1 := by simp [firstCols, hb]
      rcases hr : (loadRows fs).isEmpty with _ | _
      · have hr' : loadRows fs ≠ [] := by
          simpa [List.isEmpty_iff] using hr
        simp only [hr, Bool.false_eq_true, if_false, hfl, hfc, ne_eq, hr',
          not_false_eq_true, true_and]
        split_ifs with h1 h2
        · simp [h1, h2]
        · simp [h1, h2]
        · simp [h1]
      · have hr' : loadRows fs = [] := List.isEmpty_iff.mp hr
        simp [hr, hr']

theorem load_fresh_eq_rebuild (fs : FS) :
    load_sales_dataframe fs initState = loadRebuild fs initState (source_mtime fs) := rfl

theorem load_fresh_none_iff (fs : FS) :
    (load_sales_dataframe fs initState).2.1 = .ok none ↔ loadRows fs = [] := by
  rw [load_fresh_eq_rebuild, loadRebuild]
  rcases hl : load_from_sql_files fs with _ | t
  · simp only [Except.error.injEq]
    constructor
    · intro h
      exact absurd h (by simp)
    · intro h
      exact absurd ((load_from_sql_files_ok_none_iff fs).mpr h) (by simp [hl])
  · rcases t with _ | t0
    · simpa using (load_from_sql_files_ok_none_iff fs).mp hl
    · simp only []
      constructor
      · intro h
        exact absurd h (by simp)
      · intro h
        exact absurd ((load_from_sql_files_ok_none_iff fs).mpr h) (by simp [hl])

theorem load_fresh_error_iff (fs : FS) :
    (load_sales_dataframe fs initState).2.1 = .error () ↔
      (anyCsvRaise fs = true ∨
        (loadRows fs ≠ [] ∧ maxRowLen (loadRows fs) ≠ firstColsLen fs) ∨
        (loadRows fs ≠ [] ∧ maxRowLen (loadRows fs) = firstColsLen fs ∧
          dup_numeric_cols (firstCols fs) = true)) := by
  rw [load_fresh_eq_rebuild, loadRebuild]
  rcases hl : load_from_sql_files fs with _ | t
  · simpa using (load_from_sql_files_error_iff fs).mp hl
  · have hne : ¬load_from_sql_files fs = .error () := by simp [hl]
    rw [load_from_sql_files_error_iff fs] at hne
    rcases t with _ | t0 <;> simpa using hne

/-!
## Cache lemmas
-/

/-- The cached path: with a valid unchanged positive signature, a call
allocates a copy of the cached table, touches no file, and leaves the cache
in place. -/
theorem load_cache_hit (fs : FS) (s : LoaderState) (c : Nat)
    (hc : s.cacheRef = some c) (hm : 0 < source_mtime fs)
    (hmt : s.cacheMtime = source_mtime fs) :
    load_sales_dataframe fs s =
      (⟨s.heap ++ [s.heap.getD c default], some c, s.cacheMtime⟩,
        .ok (some s.heap.length), 0) := by
  rw [load_sales_dataframe, hc]
  simp [hm, hmt]

/-- Cache misses take the rebuild path. -/
theorem load_eq_rebuild (fs : FS) (s : LoaderState)
    (hmiss : s.cacheRef = none ∨
      ¬(0 < source_mtime fs ∧ s.cacheMtime = source_mtime fs)) :
    load_sales_dataframe fs s = loadRebuild fs s (source_mtime fs) := by
  rw [load_sales_dataframe]
  rcases hc : s.cacheRef with _ | c
  · rfl
  · rcases hmiss with hn | hcond
    · rw [hn] at hc
      exact absurd hc (by simp)
    · simp [hcond]

/-- The rebuild path, when it returns a table: the cache reference points at
the object cached as _cache_df, the returned reference at the df.copy()
object, and the two are distinct objects with the same value. -/
theorem load_rebuild_state (fs : FS) (s : LoaderState) (m : Nat) (r₁ : Nat)
    (h : (loadRebuild fs s m).2.1 = .ok (some r₁)) :
    ∃ c T, (loadRebuild fs s m).1.cacheRef = some c ∧
      (loadRebuild fs s m).1.cacheMtime = m ∧
      c ≠ r₁ ∧
      ((loadRebuild fs s m).1.heap)[c]? = some T ∧
      ((loadRebuild fs s m).1.heap)[r₁]? = some T := by
  rw [loadRebuild] at h ⊢
  rcases hl : load_from_sql_files fs with _ | t
  · rw [hl] at h
    simp at h
  · rcases t with _ | t0
    · rw [hl] at h
      simp at h
    · rw [hl] at h
      have hr : s.heap.length + 1 = r₁ := by simpa using h
      subst hr
      refine ⟨s.heap.length, postprocess t0, rfl, rfl, by omega, ?_, ?_⟩
      · show (s.heap ++ [postprocess t0, postprocess t0])[s.heap.length]? =
          some (postprocess t0)
        rw [List.getElem?_append_right (Nat.le_refl _)]
        simp
      · show (s.heap ++ [postprocess t0, postprocess t0])[s.heap.length + 1]? =
          some (postprocess t0)
        rw [List.getElem?_append_right
          (by omega : s.heap.length ≤ s.heap.length + 1)]
        simp

/-- After any call that returns a table, the cache holds a reference,
distinct from the returned one, to an object with the same value, and the
stored signature is the current one. -/
theorem load_ok_state (fs : FS) (s : LoaderState) (r₁ : Nat)
    (hw : wfState s = true)
    (h : (load_sales_dataframe fs s).2.1 = .ok (some r₁)) :
    ∃ c T, (load_sales_dataframe fs s).1.cacheRef = some c ∧
      (load_sales_dataframe fs s).1.cacheMtime = source_mtime fs ∧
      c ≠ r₁ ∧
      ((load_sales_dataframe fs s).1.heap)[c]? = some T ∧
      ((load_sales_dataframe fs s).1.heap)[r₁]? = some T := by
  rcases hc : s.cacheRef with _ | c₀
  · rw [load_eq_rebuild fs s (Or.inl hc)] at h ⊢
    exact load_rebuild_state fs s (source_mtime fs) r₁ h
  · by_cases hhit : 0 < source_mtime fs ∧ s.cacheMtime = source_mtime fs
    · rw [load_cache_hit fs s c₀ hc hhit.1 hhit.2] at h ⊢
      have hr : s.heap.length = r₁ := by simpa using h
      subst hr
      have hlt : c₀ < s.heap.length := by
        simpa [wfState, hc] using hw
      refine ⟨c₀, s.heap.getD c₀ default, rfl, hhit.2, Nat.ne_of_lt hlt, ?_, ?_⟩
      · rw [List.getElem?_append_left hlt, List.getElem?_eq_getElem hlt,
          List.getD_eq_getElem?_getD, List.getElem?_eq_getElem hlt]
        rfl
      · simp [List.getElem?_concat_length]
    · rw [load_eq_rebuild fs s (Or.inr hhit)] at h ⊢
      exact load_rebuild_state fs s (source_mtime fs) r₁ h

/-- The raw table a successful build carries: its columns are the first
block's columns. -/
theorem load_from_sql_files_eq_none (fs : FS)
    (hb : (allBlocks fs).head? = none) : load_from_sql_files fs = .ok none := by
  have hnil : allBlocks fs = [] := List.head?_eq_none_iff.mp hb
  have hnr : anyCsvRaise fs = false := by simp [anyCsvRaise, hnil]
  rw [load_from_sql_files, if_neg (by simp [hnr]), hb]

theorem load_from_sql_files_eq_some (fs : FS) (b : List String × String)
    (hnr : anyCsvRaise fs = false) (hb : (allBlocks fs).head? = some b) :
    load_from_sql_files fs =
      if (loadRows fs).isEmpty then .ok none
      else if maxRowLen (loadRows fs) = b.1.length then
        if dup_numeric_cols b.1 then .error ()
        else .ok (some ⟨b.1, (loadRows fs).map (padRow (maxRowLen (loadRows fs)))⟩)
      else .error () := by
  rw [load_from_sql_files, if_neg (by simp [hnr]), hb]

theorem load_from_sql_files_cols (fs : FS) (t0 : Table)
    (h : load_from_sql_files fs = .ok (some t0)) :
    ∃ b, (allBlocks fs).head? = some b ∧ t0.cols = b.1 := by
  cases hnr : anyCsvRaise fs with
  | true =>
    rw [load_from_sql_files, if_pos hnr] at h
    simp at h
  | false =>
    rcases hb : (allBlocks fs).head? with _ | b
    · rw [load_from_sql_files_eq_none fs hb] at h
      simp at h
    · rw [load_from_sql_files_eq_some fs b hnr hb] at h
      split at h
      · simp at h
      · split at h
        · split at h
          · simp at h
          · simp only [Except.ok.injEq, Option.some.injEq] at h
            exact ⟨b, rfl, by rw [← h]⟩
        · simp at h

/-- A table returned on a fresh module state is the post-processed build. -/
theorem retVal_fresh (fs : FS) (t : Table)
    (h : retVal (load_sales_dataframe fs initState) = some t) :
    ∃ t0, load_from_sql_files fs = .ok (some t0) ∧ t = postprocess t0 := by
  rw [load_fresh_eq_rebuild, loadRebuild] at h
  rcases hl : load_from_sql_files fs with _ | t1
  · rw [hl] at h
    simp [retVal] at h
  · rcases t1 with _ | t0
    · rw [hl] at h
      simp [retVal] at h
    · rw [hl] at h
      refine ⟨t0, rfl, ?_⟩
      have h2 : some (postprocess t0) = some t := h
      exact (Option.some.inj h2).symm

/-- The rename map produces store_stock_quantity only from itself. -/
theorem renameCol_eq_stock (c : String) :
    renameCol c = "store_stock_quantity" ↔ c = "store_stock_quantity" := by
  rw [renameCol]
  split_ifs with h1 h2 h3 h4
  · subst h1; decide
  · subst h2; decide
  · subst h3; decide
  · subst h4; decide
  · exact Iff.rfl

/-!
## Concrete inputs used by the claim theorems
-/

/-- A one-file source set whose single tuple is the quoted string p. -/
def fsW : FS := [some ⟨"INSERT INTO sales_data (a) VALUES ('p');", 5⟩]

/-- Two files; the second carries the tuple x and an older mtime. -/
def c7fs1 : FS :=
  [some ⟨"INSERT INTO sales_data (a) VALUES ('p');", 5⟩,
   some ⟨"INSERT INTO sales_data (a) VALUES ('x');", 3⟩]

/-- The same set after the second file's content and mtime change; the
maximum mtime is still that of the first file. -/
def c7fs2 : FS :=
  [some ⟨"INSERT INTO sales_data (a) VALUES ('p');", 5⟩,
   some ⟨"INSERT INTO sales_data (a) VALUES ('y');", 4⟩]

/-- One readable file with no INSERT statement. -/
def fsHello : FS := [some ⟨"hello", 1⟩]

/-- One readable file whose single tuple has one field more than the
declared column list. -/
def fsBad : FS := [some ⟨"INSERT INTO sales_data (a,b) VALUES (1,2,3);", 1⟩]

/-- A tuple text with an unquoted carriage return followed by more text:
csv.reader raises on it although its field count matches the schema. -/
def fsCR : FS := [some ⟨"INSERT INTO sales_data (a) VALUES (x\ry);", 1⟩]

/-- A duplicated numeric column name: pd.to_numeric raises on it although
the field counts match. -/
def fsDup : FS :=
  [some ⟨"INSERT INTO sales_data (quantity,quantity) VALUES (1,2);", 1⟩]

/-- A two-column block whose second tuple has a single field. -/
def fsPad : FS := [some ⟨"INSERT INTO sales_data (a,b) VALUES (1,2),(9);", 1⟩]

/-- A quantity column with no store_stock_quantity column. -/
def fsQ : FS := [some ⟨"INSERT INTO sales_data (quantity) VALUES (3);", 1⟩]

/-- A backend INSERT whose single tuple has exactly 14 fields. -/
def c14text : String :=
  "INSERT INTO sales_data (c) VALUES (1,2,3,4,5,6,7,8,9,10,11,12,13,14);"

/-- A backend INSERT whose single tuple has 15 fields. -/
def c15text : String :=
  "INSERT INTO sales_data (c) VALUES (1,2,3,4,5,6,7,8,9,10,11,12,13,14,15);"

/-- A backend INSERT whose single tuple has 16 fields. -/
def c16text : String :=
  "INSERT INTO sales_data (c) VALUES (1,2,3,4,5,6,7,8,9,10,11,12,13,14,15,16);"

/-- The leading separator of the tokenizer witness blob. -/
def sep0W : List Char := " ".data

/-- Two witness tuples, the first with a comma and parentheses inside a
quoted string, separated by a comma and a newline. -/
def partsW : List (List Char × List Char) :=
  [("1,'a,(b)'".data, ",\n".data), ("2,NULL".data, "".data)]

/-!
## Claim theorems
-/

/-- C1, counterexample: the single-quoted token written NULL parses to the
null value, not to the text NULL, because csv.reader strips the quotes
before the case-insensitive NULL comparison. -/
theorem c1_quoted_null_counterexample :
    parse_insert_values "'NULL'" = [none] ∧
    parse_insert_values "'NULL'" ≠ [some "NULL"] := by
  exact ⟨by decide, by decide⟩

/-- C1 (amended): the bare unquoted token NULL, compared case-insensitively,
parses to the null value; and the single-quoted token NULL also parses to
the null value — quote stripping happens before the NULL comparison, so any
quoted string whose stripped content case-folds to NULL becomes null as
well. -/
theorem c1_quoted_null_amended :
    parse_insert_values "NULL" = [none] ∧ parse_insert_values "null" = [none] ∧
    ∀ s : String, pyUpper (pyStrip s) = "NULL" →
      parse_insert_values (sqlEncode s) = [none] := by
  refine ⟨by decide, by decide, fun s hs => ?_⟩
  rw [parse_insert_values, csvParse1_sqlEncode]
  simp [parseField, hs]

/-- C1, witness: the quoted mixed-case token parses to null. -/
theorem c1_quoted_null_witness :
    pyUpper (pyStrip " nUlL ") = "NULL" ∧
    parse_insert_values (sqlEncode " nUlL ") = [none] :=
  ⟨by decide, c1_quoted_null_amended.2.2 " nUlL " (by decide)⟩

/-- C2, counterexample: a tuple with 15 fields against the backend's
14-column schema is not rejected — its first 14 fields are kept. -/
theorem c2_field_count_counterexample :
    ls_parse_insert_values c15text ≠ [] ∧
    ls_parse_insert_values c15text =
      [["1", "2", "3", "4", "5", "6", "7", "8", "9", "10", "11", "12", "13",
        "14"]] := by
  exact ⟨by decide, by decide⟩

/-- C2 (amended): a tuple whose field count differs from the established
column count is not rejected and no parse-failure counter exists: the
model-server loader keeps a short tuple, padding it with null in the built
table without corrupting the sibling row, and the backend parser truncates a
16-field tuple to its first 14 fields (while it does drop tuples with fewer
than 14 fields). -/
theorem c2_field_count_amended :
    retVal (load_sales_dataframe fsPad initState) =
      some ⟨["a", "b"], [[.str "1", .str "2"], [.str "9", .null]]⟩ ∧
    ls_parse_insert_values c16text =
      [["1", "2", "3", "4", "5", "6", "7", "8", "9", "10", "11", "12", "13",
        "14"]] ∧
    ls_parse_insert_values "INSERT INTO sales_data (c) VALUES (1,2,3);" =
      [] := by
  exact ⟨by decide, by decide, by decide⟩

/-- C3, counterexample: the round trip is not the identity on a string with
trailing whitespace — the field parser strips each parsed field. -/
theorem c3_roundtrip_counterexample :
    (iter_tuple_texts ("(" ++ sqlEncode "a' " ++ ")")).map parse_insert_values =
      [[some "a'"]] ∧ "a'" ≠ "a' " := by
  exact ⟨by decide, by decide⟩

/-- C3 (amended): for any string that contains an apostrophe and carries no
leading or trailing whitespace, encoding it with the doubled-quote rule and
parsing the result back through the tokenizer and the field parser yields
exactly the original string. -/
theorem c3_roundtrip_amended (s : String) (hq : '\'' ∈ s.data)
    (hstrip : pyStrip s = s) :
    (iter_tuple_texts ("(" ++ sqlEncode s ++ ")")).map parse_insert_values =
      [[some s]] := by
  rw [iter_tuple_texts_sqlEncode]
  simp only [List.map_cons, List.map_nil]
  rw [parse_insert_values, csvParse1_sqlEncode]
  have hne : pyUpper s ≠ "NULL" := pyUpper_ne_NULL s hq
  simp [parseField, hstrip, hne]

/-- C3, witness: the round trip is the identity on a name with an embedded
apostrophe. -/
theorem c3_roundtrip_witness :
    ('\'' ∈ "O'Brien".data ∧ pyStrip "O'Brien" = "O'Brien") ∧
    (iter_tuple_texts ("(" ++ sqlEncode "O'Brien" ++ ")")).map
      parse_insert_values = [[some "O'Brien"]] :=
  ⟨⟨by decide, by decide⟩,
    c3_roundtrip_amended "O'Brien" (by decide) (by decide)⟩

/-- C4: a blob made of N well-formed parenthesized tuples, separated by text
free of parentheses and quotes, tokenizes to exactly those N inner texts in
source order — embedded commas and parentheses inside quoted strings do not
split or open tuples — and a blob of whitespace only (in particular the
empty blob) tokenizes to zero tuples. -/
theorem c4_tokenizer_count :
    (∀ (sep0 : List Char) (parts : List (List Char × List Char)),
      sepOk sep0 = true →
      (∀ p ∈ parts, tupleOk p.1 = true ∧ sepOk p.2 = true) →
      iter_tuple_texts_l (renderBlob sep0 parts) = parts.map Prod.fst ∧
      (iter_tuple_texts_l (renderBlob sep0 parts)).length = parts.length) ∧
    (∀ blob : List Char, (∀ c ∈ blob, isPyWs c = true) →
      iter_tuple_texts_l blob = []) := by
  constructor
  · intro sep0 parts h0 hp
    have h := iterAux_render parts sep0 h0 hp
    refine ⟨h, ?_⟩
    show (iterAux (renderBlob sep0 parts) .outside none).length = parts.length
    rw [h, List.length_map]
  · intro blob hws
    have hsep : sepOk blob = true := by
      rw [sepOk, List.all_eq_true]
      intro c hc
      simpa using isPyWs_sep c (hws c hc)
    have h := iterAux_sep blob hsep []
    rw [List.append_nil] at h
    exact h

/-- C4, witness: a two-tuple blob with a comma and parentheses inside a
quoted string tokenizes to its two inner texts. -/
theorem c4_tokenizer_count_witness :
    (sepOk sep0W = true ∧
      (∀ p ∈ partsW, tupleOk p.1 = true ∧ sepOk p.2 = true)) ∧
    iter_tuple_texts_l (renderBlob sep0W partsW) = partsW.map Prod.fst :=
  ⟨⟨by decide, by decide⟩,
    (c4_tokenizer_count.1 sep0W partsW (by decide) (by decide)).1⟩

/-- C5, counterexample: a resolvable file with no parseable INSERT makes the
loader return null rather than a table; and the loader is not exception-free
for data-quality problems — a tuple wider than the declared column list, an
unquoted carriage return inside a tuple (field counts matching), and a
duplicated numeric column name (field counts matching) all make it raise. -/
theorem c5_null_result_counterexample :
    ((∃ fr, some fr ∈ fsHello) ∧
      (load_sales_dataframe fsHello initState).2.1 = .ok none) ∧
    ((∃ fr, some fr ∈ fsBad) ∧
      (load_sales_dataframe fsBad initState).2.1 = .error ()) ∧
    ((load_sales_dataframe fsCR initState).2.1 = .error () ∧
      maxRowLen (loadRows fsCR) = firstColsLen fsCR) ∧
    ((load_sales_dataframe fsDup initState).2.1 = .error () ∧
      maxRowLen (loadRows fsDup) = firstColsLen fsDup) := by
  refine ⟨⟨⟨⟨"hello", 1⟩, ?_⟩, rfl⟩,
    ⟨⟨⟨"INSERT INTO sales_data (a,b) VALUES (1,2,3);", 1⟩, ?_⟩, rfl⟩,
    ⟨rfl, rfl⟩, ⟨rfl, rfl⟩⟩
  · exact List.mem_singleton.mpr rfl
  · exact List.mem_singleton.mpr rfl

/-- C5 (amended): on a fresh module state the loader returns null exactly
when parsing the source files yields zero rows — so also for resolvable
files without parseable tuples — and it raises exactly when (a) some tuple
text makes csv.reader raise (an unquoted carriage return followed by more
text on its line, or a field longer than the field-size limit), or (b) rows
were parsed and their maximum field count differs from the established
column count (the pandas column-count assertion), or (c) the field counts
match but a numeric column name is duplicated (the pd.to_numeric TypeError).
In particular, unreadable files and text matching no INSERT pattern never
make it raise. -/
theorem c5_null_result_amended (fs : FS) :
    ((load_sales_dataframe fs initState).2.1 = .ok none ↔ loadRows fs = []) ∧
    ((load_sales_dataframe fs initState).2.1 = .error () ↔
      (anyCsvRaise fs = true ∨
        (loadRows fs ≠ [] ∧ maxRowLen (loadRows fs) ≠ firstColsLen fs) ∨
        (loadRows fs ≠ [] ∧ maxRowLen (loadRows fs) = firstColsLen fs ∧
          dup_numeric_cols (firstCols fs) = true))) :=
  ⟨load_fresh_none_iff fs, load_fresh_error_iff fs⟩

/-- C5, witness: the characterization evaluated on the carriage-return
source set, whose call raises through the csv disjunct. -/
theorem c5_null_result_witness :
    ((load_sales_dataframe fsCR initState).2.1 = .ok none ↔
      loadRows fsCR = []) ∧
    ((load_sales_dataframe fsCR initState).2.1 = .error () ↔
      (anyCsvRaise fsCR = true ∨
        (loadRows fsCR ≠ [] ∧ maxRowLen (loadRows fsCR) ≠ firstColsLen fsCR) ∨
        (loadRows fsCR ≠ [] ∧ maxRowLen (loadRows fsCR) = firstColsLen fsCR ∧
          dup_numeric_cols (firstCols fsCR) = true))) :=
  c5_null_result_amended fsCR

/-- C6: with unchanged source files whose freshness signature is positive
(true of any real file's modification time), a second call after one that
returned a table performs zero file reads and returns a table with exactly
the same value. -/
theorem c6_cache_idempotent (fs : FS) (s₀ : LoaderState) (r₁ : Nat)
    (hw : wfState s₀ = true) (hm : 0 < source_mtime fs)
    (h₁ : (load_sales_dataframe fs s₀).2.1 = .ok (some r₁)) :
    (load_sales_dataframe fs (load_sales_dataframe fs s₀).1).2.2 = 0 ∧
    ∃ r₂,
      (load_sales_dataframe fs (load_sales_dataframe fs s₀).1).2.1 =
        .ok (some r₂) ∧
      ((load_sales_dataframe fs (load_sales_dataframe fs s₀).1).1.heap)[r₂]? =
        ((load_sales_dataframe fs s₀).1.heap)[r₁]? := by
  obtain ⟨c, T, hc, hmt, hne, hgc, hgr⟩ := load_ok_state fs s₀ r₁ hw h₁
  rw [load_cache_hit fs (load_sales_dataframe fs s₀).1 c hc hm hmt]
  refine ⟨rfl, (load_sales_dataframe fs s₀).1.heap.length, rfl, ?_⟩
  rw [List.getElem?_concat_length, hgr, List.getD_eq_getElem?_getD, hgc]
  rfl

/-- C6, witness: the second call on a one-file source set serves the cache. -/
theorem c6_cache_idempotent_witness :
    (wfState initState = true ∧ 0 < source_mtime fsW ∧
      (load_sales_dataframe fsW initState).2.1 = .ok (some 1)) ∧
    ((load_sales_dataframe fsW (load_sales_dataframe fsW initState).1).2.2 = 0 ∧
    ∃ r₂,
      (load_sales_dataframe fsW (load_sales_dataframe fsW initState).1).2.1 =
        .ok (some r₂) ∧
      ((load_sales_dataframe fsW (load_sales_dataframe fsW initState).1).1.heap)[r₂]? =
        ((load_sales_dataframe fsW initState).1.heap)[1]?) :=
  ⟨⟨by decide, by decide, rfl⟩,
    c6_cache_idempotent fsW initState 1 (by decide) (by decide) rfl⟩

/-- C7, counterexample: the second file's modification time and content both
change, but the maximum mtime (the freshness signature) does not, so the
second call serves the stale cached table instead of the updated content. -/
theorem c7_freshness_counterexample :
    source_mtime c7fs1 = source_mtime c7fs2 ∧ c7fs1 ≠ c7fs2 ∧
    retVal (load_sales_dataframe c7fs2 (load_sales_dataframe c7fs1 initState).1) ≠
      retVal (load_sales_dataframe c7fs2 initState) ∧
    retVal (load_sales_dataframe c7fs2 (load_sales_dataframe c7fs1 initState).1) =
      retVal (load_sales_dataframe c7fs1 initState) := by
  exact ⟨rfl, by decide, by decide, rfl⟩

/-- C7 (amended): whenever the maximum modification time over the source
files differs from the cached signature — in particular when the most recent
file changes — the call rebuilds from the files, performing the full set of
reads, and its result is exactly the table built from the current file
contents. -/
theorem c7_freshness_amended (fs₂ : FS) (s : LoaderState) (t0 : Table)
    (hm : s.cacheMtime ≠ source_mtime fs₂)
    (hb : load_from_sql_files fs₂ = .ok (some t0)) :
    (load_sales_dataframe fs₂ s).2.1 = .ok (some (s.heap.length + 1)) ∧
    retVal (load_sales_dataframe fs₂ s) = some (postprocess t0) ∧
    (load_sales_dataframe fs₂ s).2.2 = readsOf fs₂ := by
  have hmiss : s.cacheRef = none ∨
      ¬(0 < source_mtime fs₂ ∧ s.cacheMtime = source_mtime fs₂) := by
    right
    rintro ⟨_, h⟩
    exact hm h
  rw [load_eq_rebuild fs₂ s hmiss, loadRebuild, hb]
  refine ⟨rfl, ?_, rfl⟩
  show (s.heap ++ [postprocess t0, postprocess t0])[s.heap.length + 1]? =
    some (postprocess t0)
  rw [List.getElem?_append_right (by omega : s.heap.length ≤ s.heap.length + 1)]
  simp

/-- C7, witness: a fresh state (cached signature 0) rebuilds from the
current files. -/
theorem c7_freshness_witness :
    (initState.cacheMtime ≠ source_mtime c7fs2 ∧
      load_from_sql_files c7fs2 =
        .ok (some ⟨["a"], [[.str "p"], [.str "y"]]⟩)) ∧
    retVal (load_sales_dataframe c7fs2 initState) =
      some (postprocess ⟨["a"], [[.str "p"], [.str "y"]]⟩) :=
  ⟨⟨by decide, rfl⟩,
    (c7_freshness_amended c7fs2 initState ⟨["a"], [[.str "p"], [.str "y"]]⟩
      (by decide) rfl).2.1⟩

/-- C8: a returned table is a defensive copy: overwriting the object behind
the returned reference with any table value, then calling again on unchanged
sources, returns the original unmutated values. -/
theorem c8_defensive_copy (fs : FS) (s₀ : LoaderState) (r₁ : Nat) (t' : Table)
    (hw : wfState s₀ = true) (hm : 0 < source_mtime fs)
    (h₁ : (load_sales_dataframe fs s₀).2.1 = .ok (some r₁)) :
    retVal (load_sales_dataframe fs
      (mutateAt (load_sales_dataframe fs s₀).1 r₁ t')) =
      ((load_sales_dataframe fs s₀).1.heap)[r₁]? := by
  obtain ⟨c, T, hc, hmt, hne, hgc, hgr⟩ := load_ok_state fs s₀ r₁ hw h₁
  have hc' : (mutateAt (load_sales_dataframe fs s₀).1 r₁ t').cacheRef = some c := hc
  have hmt' : (mutateAt (load_sales_dataframe fs s₀).1 r₁ t').cacheMtime =
    source_mtime fs := hmt
  rw [load_cache_hit fs (mutateAt (load_sales_dataframe fs s₀).1 r₁ t') c hc' hm hmt']
  show ((mutateAt (load_sales_dataframe fs s₀).1 r₁ t').heap ++
      [(mutateAt (load_sales_dataframe fs s₀).1 r₁ t').heap.getD c default])[
      (mutateAt (load_sales_dataframe fs s₀).1 r₁ t').heap.length]? =
    ((load_sales_dataframe fs s₀).1.heap)[r₁]?
  rw [List.getElem?_concat_length, hgr]
  show some (((load_sales_dataframe fs s₀).1.heap.set r₁ t').getD c default) =
    some T
  rw [List.getD_eq_getElem?_getD, List.getElem?_set_ne (Ne.symm hne), hgc]
  rfl

/-- C8, witness: mutating the returned object on the one-file source set
does not change what the next call returns. -/
theorem c8_defensive_copy_witness :
    (wfState initState = true ∧ 0 < source_mtime fsW ∧
      (load_sales_dataframe fsW initState).2.1 = .ok (some 1)) ∧
    retVal (load_sales_dataframe fsW
      (mutateAt (load_sales_dataframe fsW initState).1 1 ⟨[], []⟩)) =
      ((load_sales_dataframe fsW initState).1.heap)[1]? :=
  ⟨⟨by decide, by decide, rfl⟩,
    c8_defensive_copy fsW initState 1 ⟨[], []⟩ (by decide) (by decide) rfl⟩

/-- C9, counterexample: the effective loader does not synthesize
store_stock_quantity — with a quantity column present and the optional
column absent from the source, the returned table still has no such
column. -/
theorem c9_stock_counterexample :
    (retVal (load_sales_dataframe fsQ initState)).map Table.cols =
      some ["quantity"] ∧
    ("store_stock_quantity" : String) ∉ (["quantity"] : List String) := by
  exact ⟨by decide, by decide⟩

/-- C9 (amended): the ratio drawn by the shadowed first loader lies in
[0.95, 1.3) and the synthesized value is at least 1, but the draw is
unseeded and unflagged; and the effective loader never synthesizes the
column at all — store_stock_quantity appears in a returned table exactly
when the first source block declares it. -/
theorem c9_stock_amended :
    (∀ q r : ℚ, 0 ≤ r → r < 1 →
      (95 / 100 ≤ stockFactor r ∧ stockFactor r < 13 / 10) ∧
      1 ≤ stockSynth q r) ∧
    (∀ (fs : FS) (t : Table), retVal (load_sales_dataframe fs initState) = some t →
      ("store_stock_quantity" ∈ t.cols ↔
        ∃ b, (allBlocks fs).head? = some b ∧ "store_stock_quantity" ∈ b.1)) := by
  constructor
  · intro q r h0 h1
    refine ⟨⟨?_, ?_⟩, ?_⟩
    · rw [stockFactor]
      nlinarith
    · rw [stockFactor]
      nlinarith
    · have hf : (1 : ℤ) ≤ ⌊max 1 (q * stockFactor r)⌋ := by
        rw [Int.le_floor]
        exact_mod_cast le_max_left 1 (q * stockFactor r)
      rw [stockSynth, roundHalfEven]
      split_ifs <;> omega
  · intro fs t h
    obtain ⟨t0, hl, ht⟩ := retVal_fresh fs t h
    obtain ⟨b, hb, hcols⟩ := load_from_sql_files_cols fs t0 hl
    subst ht
    have hpc : (postprocess t0).cols = t0.cols.map renameCol := rfl
    rw [hpc, hcols]
    constructor
    · intro hm
      obtain ⟨a, ha, hae⟩ := List.mem_map.mp hm
      exact ⟨b, hb, ((renameCol_eq_stock a).mp hae) ▸ ha⟩
    · rintro ⟨b', hb', hmem⟩
      rw [hb] at hb'
      injection hb' with hb''
      subst hb''
      exact List.mem_map.mpr ⟨_, hmem, (renameCol_eq_stock _).mpr rfl⟩

/-- C9, witness: the bounds at the draw 0, and the no-synthesis property on
the one-column source set. -/
theorem c9_stock_witness :
    ((0 : ℚ) ≤ 0 ∧ (0 : ℚ) < 1 ∧
      retVal (load_sales_dataframe fsW initState) =
        some ⟨["a"], [[.str "p"]]⟩) ∧
    ((95 / 100 ≤ stockFactor 0 ∧ stockFactor 0 < 13 / 10) ∧
      1 ≤ stockSynth 3 0) ∧
    ("store_stock_quantity" ∈ (⟨["a"], [[.str "p"]]⟩ : Table).cols ↔
      ∃ b, (allBlocks fsW).head? = some b ∧ "store_stock_quantity" ∈ b.1) :=
  ⟨⟨le_refl 0, zero_lt_one, by decide⟩,
    (c9_stock_amended.1 3 0 (le_refl 0) zero_lt_one),
    (c9_stock_amended.2 fsW ⟨["a"], [[.str "p"]]⟩ (by decide))⟩

/-- C10: every row the backend 14-column parser returns has exactly 14
fields — rows with fewer fields are dropped, longer rows are cut to their
first 14 — so the in-memory table it feeds is rectangular with 14
columns. -/
theorem c10_rectangular (content : String) (row : List String)
    (h : row ∈ ls_parse_insert_values content) : row.length = 14 :=
  ls_parse_row_length content row h

/-- C10, witness: the parser output on a 14-field tuple. -/
theorem c10_rectangular_witness :
    (["1", "2", "3", "4", "5", "6", "7", "8", "9", "10", "11", "12", "13",
      "14"] ∈ ls_parse_insert_values c14text) ∧
    (["1", "2", "3", "4", "5", "6", "7", "8", "9", "10", "11", "12", "13",
      "14"] : List String).length = 14 :=
  ⟨by decide, c10_rectangular c14text _ (by decide)⟩

end Sales
